import Mathlib

/-!
Verification of the PublicOS entity-motion subsystem: the keyframe
interpolation engine (`src/lib/simulation/interpolation.ts`) and the drone
physics / safety model (`src/lib/physics/drone.ts`).

The interpolation engine performs only field arithmetic, comparisons, JS `%`
(truncated remainder) and array operations, so it is embedded over `ℚ` and is
fully executable.  The physics model calls `Math.exp` / `Math.pow`, so it is
embedded over `ℝ` with `Real.exp` / real powers.

JS-specific semantics captured explicitly:
- `x % y` is the truncated remainder (sign of the dividend): `jsMod`;
- `arr.slice(start)` with a possibly negative `start`: `jsSlice`
  (note `slice(-0)` is `slice(0)`, i.e. the whole array);
- the float value `Infinity` returned by `remainingFlightTime` is modelled as
  `none : Option ℝ`, and the comparisons `Infinity < 5`, `Infinity < 15`
  (both false in JS) as the `none` branch contributing no battery risk.
-/

namespace PublicOS

/-- JS truncation toward zero (`Math.trunc`), as used by the `%` operator. -/
def jsTrunc (q : ℚ) : ℤ :=
  if 0 ≤ q then ⌊q⌋ else ⌈q⌉

/-- JS remainder operator `x % y`: `x - y * trunc (x / y)`. -/
def jsMod (x y : ℚ) : ℚ :=
  x - y * (jsTrunc (x / y) : ℚ)

/-- Three-dimensional geographic position (`LngLatAlt` in `types/map.ts`), parameterized by
the number type (`ℚ` for the interpolation engine, `ℝ` for physics). -/
structure LngLatAlt (α : Type) where
  lng : α
  lat : α
  alt : α
deriving DecidableEq, Repr

/-- A timestamped pose sample (`Keyframe` in `types/simulation.ts`). -/
structure Keyframe where
  position : LngLatAlt ℚ
  heading : ℚ
  pitch : ℚ
  roll : ℚ
  timestamp : ℚ
deriving DecidableEq, Repr

instance : Inhabited Keyframe :=
  ⟨{ position := ⟨0, 0, 0⟩, heading := 0, pitch := 0, roll := 0, timestamp := 0 }⟩

/-- Per-entity keyframe buffer (`InterpolationBuffer` in `types/simulation.ts`);
`current = none` models the JS `null`. -/
structure InterpolationBuffer where
  entityId : String
  keyframes : List Keyframe
  current : Option Keyframe
  renderDelay : ℚ
deriving DecidableEq, Repr

/-- Function `clamp01` from `interpolation.ts`: `Math.max(0, Math.min(1, t))`. -/
def clamp01 (t : ℚ) : ℚ :=
  max 0 (min 1 t)

/-- Function `lerp` from `interpolation.ts`. -/
def lerp (a b t : ℚ) : ℚ :=
  a + (b - a) * clamp01 t

/-- Function `lerpPosition` from `interpolation.ts`. -/
def lerpPosition (a b : LngLatAlt ℚ) (t : ℚ) : LngLatAlt ℚ :=
  let ct := clamp01 t
  { lng := a.lng + (b.lng - a.lng) * ct
    lat := a.lat + (b.lat - a.lat) * ct
    alt := a.alt + (b.alt - a.alt) * ct }

/-- Function `slerpHeading` from `interpolation.ts`:
`diff = ((b - a + 540) % 360) - 180; return ((a + diff * ct) + 360) % 360`. -/
def slerpHeading (a b t : ℚ) : ℚ :=
  let ct := clamp01 t
  let diff := jsMod (b - a + 540) 360 - 180
  jsMod ((a + diff * ct) + 360) 360

/-- Function `interpolateKeyframe` from `interpolation.ts`. -/
def interpolateKeyframe (prev next : Keyframe) (renderTime : ℚ) : Keyframe :=
  let duration := next.timestamp - prev.timestamp
  let t := if 0 < duration then (renderTime - prev.timestamp) / duration else 0
  { position := lerpPosition prev.position next.position t
    heading := slerpHeading prev.heading next.heading t
    pitch := lerp prev.pitch next.pitch t
    roll := lerp prev.roll next.roll t
    timestamp := renderTime }

/-- Ascending-timestamp comparison used by the `Array.sort` comparator
`(a, b) => a.timestamp - b.timestamp`. -/
def tsLE (x y : Keyframe) : Prop :=
  x.timestamp ≤ y.timestamp

instance : DecidableRel tsLE := fun x y =>
  inferInstanceAs (Decidable (x.timestamp ≤ y.timestamp))

instance : IsTotal Keyframe tsLE :=
  ⟨fun x y => le_total x.timestamp y.timestamp⟩

instance : IsTrans Keyframe tsLE :=
  ⟨fun _ _ _ h1 h2 => le_trans h1 h2⟩

/-- JS `arr.slice(start)` (to the end of the array).  A negative `start`
counts from the end: the actual start index is `max (length + start) 0`;
a non-negative `start` is clamped to `length`.  Note JS `-0 === 0`, so
`slice(-0)` yields the whole array. -/
def jsSlice {α : Type} (l : List α) (start : ℤ) : List α :=
  if start < 0 then l.drop ((l.length + start).toNat)
  else l.drop (min start.toNat l.length)

/-- Function `pushKeyframe` from `interpolation.ts`:
`[...buffer.keyframes, keyframe].sort((a, b) => a.timestamp - b.timestamp).slice(-maxBufferSize)`.
JS `Array.sort` is stable (ES2019), modelled by `List.insertionSort`.
The JS default `maxBufferSize = 60` is passed explicitly here. -/
def pushKeyframe (buffer : InterpolationBuffer) (keyframe : Keyframe)
    (maxBufferSize : ℤ) : InterpolationBuffer :=
  let keyframes :=
    jsSlice (List.insertionSort tsLE (buffer.keyframes ++ [keyframe])) (-maxBufferSize)
  { buffer with keyframes := keyframes }

/-- The backward scan of `computeInterpolatedState`
(`for (let i = keyframes.length - 1; i >= 0; i--) if ts <= renderTime { prevIdx = i; break }`):
index of the last keyframe with `timestamp ≤ renderTime`, defaulting to 0.
`findPrevIdxAux kfs rt (i+1)` inspects index `i` and recurses downward. -/
def findPrevIdxAux (kfs : List Keyframe) (rt : ℚ) : ℕ → ℕ
  | 0 => 0
  | i + 1 =>
    match kfs.get? i with
    | some k => if k.timestamp ≤ rt then i else findPrevIdxAux kfs rt i
    | none => findPrevIdxAux kfs rt i

def findPrevIdx (kfs : List Keyframe) (rt : ℚ) : ℕ :=
  findPrevIdxAux kfs rt kfs.length

/-- Function `computeInterpolatedState` from `interpolation.ts`.
The in-range array reads `keyframes[prevIdx]` / `keyframes[nextIdx]` are
modelled with `List.getD` (the indices are always in bounds). -/
def computeInterpolatedState (buffer : InterpolationBuffer) (now : ℚ) :
    InterpolationBuffer :=
  let renderTime := now - buffer.renderDelay
  let keyframes := buffer.keyframes
  if keyframes.length = 0 then
    { buffer with current := none }
  else if keyframes.length = 1 then
    { buffer with current := some (keyframes.getD 0 default) }
  else
    let prevIdx := findPrevIdx keyframes renderTime
    let nextIdx := min (prevIdx + 1) (keyframes.length - 1)
    let prev := keyframes.getD prevIdx default
    let next := keyframes.getD nextIdx default
    let current :=
      if prevIdx = nextIdx then prev else interpolateKeyframe prev next renderTime
    { buffer with current := some current }

/-- Function `createBuffer` from `interpolation.ts` (JS default `renderDelay = 1000`
is passed explicitly).  Performs no validation of `renderDelay`. -/
def createBuffer (entityId : String) (renderDelay : ℚ) : InterpolationBuffer :=
  { entityId := entityId
    keyframes := []
    current := none
    renderDelay := renderDelay }

/-! ## Physics model (`src/lib/physics/drone.ts`), over `ℝ` -/

/-- Air density at sea level (kg/m³), `RHO_SEA_LEVEL` in `drone.ts`. -/
def RHO_SEA_LEVEL : ℝ := 1.225

/-- Gravitational acceleration (m/s²), `G` in `drone.ts`. -/
def G : ℝ := 9.80665

/-- Structure `DroneSpec` from `drone.ts`. -/
structure DroneSpec where
  mass : ℝ
  maxPayload : ℝ
  dragArea : ℝ
  dragCoefficient : ℝ
  batteryCapacity : ℝ
  hoverPower : ℝ
  maxAirspeed : ℝ
  maxWindSpeed : ℝ

/-- Constant `DEFAULT_DRONE_SPEC` from `drone.ts`. -/
def DEFAULT_DRONE_SPEC : DroneSpec :=
  { mass := 4.0
    maxPayload := 2.0
    dragArea := 0.05
    dragCoefficient := 1.1
    batteryCapacity := 150
    hoverPower := 200
    maxAirspeed := 18
    maxWindSpeed := 15 }

/-- The weather enumeration of `SimulationParams` (`types/simulation.ts`). -/
inductive WeatherCondition where
  | clear
  | rain
  | storm
  | typhoon
  | snow
deriving DecidableEq, Repr

/-- Structure `SimulationParams` from `types/simulation.ts`. -/
structure SimulationParams where
  windSpeed : ℝ
  windDirection : ℝ
  weatherCondition : WeatherCondition
  temperature : ℝ
  timeScale : ℝ

/-- The entity type tag of `EntityState` (`types/simulation.ts`). -/
inductive EntityType where
  | drone
  | vehicle
  | vessel
  | person
deriving DecidableEq, Repr

/-- Structure `EntityState` from `types/simulation.ts`.  The free-form `metadata`
record (`Record<string, unknown>`, unused by the physics model) is omitted. -/
structure EntityState where
  id : String
  type : EntityType
  position : LngLatAlt ℝ
  heading : ℝ
  pitch : ℝ
  roll : ℝ
  speed : ℝ
  energyLevel : ℝ
  timestamp : ℝ

/-- Function `airDensity` from `drone.ts`:
`RHO_SEA_LEVEL * Math.pow(T0 / T, 1) * Math.exp(-G * altitudeM / (287.05 * T))`. -/
noncomputable def airDensity (altitudeM tempC : ℝ) : ℝ :=
  let T := tempC + 273.15
  let T0 : ℝ := 288.15
  RHO_SEA_LEVEL * (T0 / T) ^ (1 : ℝ) * Real.exp (-G * altitudeM / (287.05 * T))

/-- Function `dragForce` from `drone.ts`: `0.5 * rho * Cd * A * v * v`. -/
noncomputable def dragForce (spec : DroneSpec) (airspeed altitude tempC : ℝ) : ℝ :=
  let rho := airDensity altitude tempC
  0.5 * rho * spec.dragCoefficient * spec.dragArea * airspeed * airspeed

/-- Function `powerConsumption` from `drone.ts`. -/
noncomputable def powerConsumption (spec : DroneSpec)
    (airspeed payload altitude tempC : ℝ) : ℝ :=
  let totalMass := spec.mass + payload
  let payloadFactor := totalMass / spec.mass
  let pHover := spec.hoverPower * payloadFactor
  let fDrag := dragForce spec airspeed altitude tempC
  let pDrag := fDrag * airspeed
  pHover + pDrag

/-- Function `remainingFlightTime` from `drone.ts`.  The JS float `Infinity` returned
when `currentPower <= 0` is modelled as `none`. -/
noncomputable def remainingFlightTime (spec : DroneSpec)
    (energyLevel currentPower : ℝ) : Option ℝ :=
  if currentPower ≤ 0 then none
  else some (spec.batteryCapacity * energyLevel / currentPower * 3600)

/-- The risk messages pushed by `assessSafety`.  The JS strings embed
formatted numbers (e.g. wind speeds, `toFixed(1)` minutes); only the message
identity matters here, so each distinct message is one constructor. -/
inductive Risk where
  /-- Message `Wind speed Xm/s exceeds max Ym/s`. -/
  | windExceedsMax
  /-- Message `Typhoon conditions, flight not recommended`. -/
  | typhoonNotRecommended
  /-- Message `Storm conditions, elevated risk`. -/
  | stormElevated
  /-- Message `Critical battery: X minutes remaining`. -/
  | criticalBattery
  /-- Message `Low battery: X minutes remaining`. -/
  | lowBattery
deriving DecidableEq, Repr

/-- Structure `SafetyAssessment` from `drone.ts`; `batteryMinutes = none` models the JS
`Infinity`. -/
structure SafetyAssessment where
  safe : Bool
  risks : List Risk
  batteryMinutes : Option ℝ
  windFactor : ℝ

/-- Function `assessSafety` from `drone.ts`.  The `risks.push` sequence (wind, then
typhoon, then storm, then battery) is modelled by list concatenation in the
same order; `safe := risks.length === 0` by `List.isEmpty`.  In JS an infinite
`flightTimeSec` gives `batteryMinutes = Infinity`, and both `Infinity < 5`
and `Infinity < 15` are false, so `none` contributes no battery risk. -/
noncomputable def assessSafety (spec : DroneSpec) (entity : EntityState)
    (env : SimulationParams) : SafetyAssessment :=
  let windFactor := env.windSpeed / spec.maxWindSpeed
  let windRisks : List Risk :=
    if spec.maxWindSpeed < env.windSpeed then [Risk.windExceedsMax] else []
  let typhoonRisks : List Risk :=
    if env.weatherCondition = WeatherCondition.typhoon then
      [Risk.typhoonNotRecommended]
    else []
  let stormRisks : List Risk :=
    if env.weatherCondition = WeatherCondition.storm then
      [Risk.stormElevated]
    else []
  let power := powerConsumption spec entity.speed 0 entity.position.alt env.temperature
  let flightTimeSec := remainingFlightTime spec entity.energyLevel power
  let batteryMinutes := flightTimeSec.map (fun s => s / 60)
  let batteryRisks : List Risk :=
    match batteryMinutes with
    | none => []
    | some m =>
      if m < 5 then [Risk.criticalBattery]
      else if m < 15 then [Risk.lowBattery]
      else []
  let risks := windRisks ++ typhoonRisks ++ stormRisks ++ batteryRisks
  { safe := risks.isEmpty
    risks := risks
    batteryMinutes := batteryMinutes
    windFactor := windFactor }

/-! ## Concrete fixtures used by witness statements -/

/-- A sample keyframe at a given timestamp and heading. -/
def sampleKf (ts h : ℚ) : Keyframe :=
  { position := ⟨132, 34, 100⟩, heading := h, pitch := 0, roll := 0, timestamp := ts }

/-- A sample entity state (the drone used by the repository's unit tests). -/
def sampleEntity : EntityState :=
  { id := "drone-1"
    type := EntityType.drone
    position := ⟨132.45, 34.39, 100⟩
    heading := 0
    pitch := 0
    roll := 0
    speed := 10
    energyLevel := 0.8
    timestamp := 0 }

/-- Typhoon environment (as in the repository's unit tests). -/
def typhoonEnv : SimulationParams :=
  { windSpeed := 25, windDirection := 180
    weatherCondition := WeatherCondition.typhoon, temperature := 20, timeScale := 1 }

/-- Clear-weather environment (as in the repository's unit tests). -/
def clearEnv : SimulationParams :=
  { windSpeed := 5, windDirection := 180
    weatherCondition := WeatherCondition.clear, temperature := 20, timeScale := 1 }

/-! ## Helper lemmas: JS `%` on non-negative dividends, `clamp01` bounds -/

theorem jsTrunc_of_nonneg {q : ℚ} (h : 0 ≤ q) : jsTrunc q = ⌊q⌋ :=
  if_pos h

theorem jsMod_eq_sub_floor {x y : ℚ} (hx : 0 ≤ x) (hy : 0 < y) :
    jsMod x y = x - y * ⌊x / y⌋ := by
  rw [jsMod, jsTrunc_of_nonneg (div_nonneg hx hy.le)]

theorem jsMod_nonneg {x y : ℚ} (hx : 0 ≤ x) (hy : 0 < y) : 0 ≤ jsMod x y := by
  rw [jsMod_eq_sub_floor hx hy, sub_nonneg]
  calc y * (⌊x / y⌋ : ℚ) ≤ y * (x / y) :=
        mul_le_mul_of_nonneg_left (Int.floor_le _) hy.le
    _ = x := by field_simp

theorem jsMod_lt {x y : ℚ} (hx : 0 ≤ x) (hy : 0 < y) : jsMod x y < y := by
  rw [jsMod_eq_sub_floor hx hy, sub_lt_iff_lt_add]
  have h1 : x / y < ⌊x / y⌋ + 1 := Int.lt_floor_add_one _
  have h2 : x < y * (⌊x / y⌋ + 1) := by
    have := (div_lt_iff₀ hy).mp h1
    linarith [this]
  linarith [h2]

/-- Characterization used to compute `jsMod` at shifted arguments: if
`x = z + y·k` with `0 ≤ z < y` (and `x ≥ 0`), then `x % y = z`. -/
theorem jsMod_eq_of_add_int_mul {x y z : ℚ} {k : ℤ} (hy : 0 < y) (hx : 0 ≤ x)
    (hz0 : 0 ≤ z) (hzy : z < y) (he : x = z + y * k) : jsMod x y = z := by
  have hyne : y ≠ 0 := hy.ne'
  have hdiv : x / y = z / y + (k : ℚ) := by
    rw [he]; field_simp; ring
  have hfl : ⌊x / y⌋ = k := by
    rw [hdiv, Int.floor_add_int]
    have h0 : ⌊z / y⌋ = 0 := by
      rw [Int.floor_eq_zero_iff]
      constructor
      · exact div_nonneg hz0 hy.le
      · rw [div_lt_one hy]; exact hzy
    omega
  rw [jsMod_eq_sub_floor hx hy, hfl, he]
  ring

theorem clamp01_nonneg (t : ℚ) : 0 ≤ clamp01 t :=
  le_max_left 0 _

theorem clamp01_le_one (t : ℚ) : clamp01 t ≤ 1 :=
  max_le (by norm_num) (min_le_left 1 t)

theorem slerpHeading_def (a b t : ℚ) :
    slerpHeading a b t =
      jsMod ((a + (jsMod (b - a + 540) 360 - 180) * clamp01 t) + 360) 360 := rfl

/-- Claim C2 (amended: the signed difference lies in `[-180, 180]`, not
`(-180, 180]`): for headings `a, b ∈ [0, 360)`, the signed shortest angular
difference `diff = ((b - a + 540) % 360) - 180` used by `slerpHeading`
satisfies `-180 ≤ diff ≤ 180` (so the interpolation follows an arc of at
most 180 degrees), and the returned heading is normalized into `[0, 360)`. -/
theorem slerpHeading_diff_and_range (a b t : ℚ)
    (h0a : 0 ≤ a) (ha : a < 360) (h0b : 0 ≤ b) (_hb : b < 360) :
    (-180 ≤ jsMod (b - a + 540) 360 - 180 ∧ jsMod (b - a + 540) 360 - 180 ≤ 180) ∧
    0 ≤ slerpHeading a b t ∧ slerpHeading a b t < 360 := by
  have hxpos : (0:ℚ) ≤ b - a + 540 := by linarith
  have h360 : (0:ℚ) < 360 := by norm_num
  have hm0 : 0 ≤ jsMod (b - a + 540) 360 := jsMod_nonneg hxpos h360
  have hmlt : jsMod (b - a + 540) 360 < 360 := jsMod_lt hxpos h360
  have hct0 : 0 ≤ clamp01 t := clamp01_nonneg t
  have hct1 : clamp01 t ≤ 1 := clamp01_le_one t
  have hprod : (jsMod (b - a + 540) 360 - 180) * clamp01 t =
      jsMod (b - a + 540) 360 * clamp01 t - 180 * clamp01 t := by ring
  have hmc : 0 ≤ jsMod (b - a + 540) 360 * clamp01 t := mul_nonneg hm0 hct0
  have harg : 0 ≤ (a + (jsMod (b - a + 540) 360 - 180) * clamp01 t) + 360 := by
    rw [hprod]; linarith
  refine ⟨⟨by linarith, by linarith⟩, ?_, ?_⟩
  · rw [slerpHeading_def]
    exact jsMod_nonneg harg h360
  · rw [slerpHeading_def]
    exact jsMod_lt harg h360

/-- Witness for `slerpHeading_diff_and_range` at `a = 350`, `b = 10`,
`t = 1/2` (the 350°→10° example, which crosses 0°). -/
theorem slerpHeading_diff_and_range_witness :
    (0:ℚ) ≤ 350 ∧ (350:ℚ) < 360 ∧ (0:ℚ) ≤ 10 ∧ (10:ℚ) < 360 ∧
    ((-180 ≤ jsMod ((10:ℚ) - 350 + 540) 360 - 180 ∧
        jsMod ((10:ℚ) - 350 + 540) 360 - 180 ≤ 180) ∧
      0 ≤ slerpHeading 350 10 (1/2) ∧ slerpHeading 350 10 (1/2) < 360) :=
  ⟨by norm_num, by norm_num, by norm_num, by norm_num,
    slerpHeading_diff_and_range 350 10 (1/2)
      (by norm_num) (by norm_num) (by norm_num) (by norm_num)⟩

/-- Claim C2 counterexample: the claim puts `diff` in the interval
`(-180, 180]`, but at `a = 0`, `b = 180` the code computes
`diff = ((180 - 0 + 540) % 360) - 180 = -180`, which is outside
`(-180, 180]`. -/
theorem slerpHeading_diff_claim_counterexample :
    ¬ (-180 < jsMod ((180:ℚ) - 0 + 540) 360 - 180 ∧
        jsMod ((180:ℚ) - 0 + 540) 360 - 180 ≤ 180) := by
  have h2 : ((180:ℚ) - 0 + 540) / 360 = 2 := by norm_num
  have h : jsMod ((180:ℚ) - 0 + 540) 360 = 0 := by
    rw [jsMod, h2, jsTrunc]
    norm_num
  rw [h]
  norm_num

/-- Claim C9: for headings `a, b ∈ [0, 360)` (so `a mod 360 = a` and
`b mod 360 = b`), `slerpHeading a b 0 = a` and `slerpHeading a b 1 = b`:
the interpolation reproduces its endpoints exactly. -/
theorem slerpHeading_endpoints (a b : ℚ)
    (h0a : 0 ≤ a) (ha : a < 360) (h0b : 0 ≤ b) (hb : b < 360) :
    slerpHeading a b 0 = a ∧ slerpHeading a b 1 = b := by
  have h360 : (0:ℚ) < 360 := by norm_num
  have hc0 : clamp01 0 = 0 := by norm_num [clamp01]
  have hc1 : clamp01 1 = 1 := by norm_num [clamp01]
  constructor
  · rw [slerpHeading_def, hc0]
    have he : (a + (jsMod (b - a + 540) 360 - 180) * 0) + 360 =
        a + 360 * (((1 : ℤ)) : ℚ) := by push_cast; ring
    exact jsMod_eq_of_add_int_mul h360
      (by rw [he]; push_cast; linarith) h0a ha he
  · rw [slerpHeading_def, hc1]
    have hxpos : (0:ℚ) ≤ b - a + 540 := by linarith
    have hm0 : 0 ≤ jsMod (b - a + 540) 360 := jsMod_nonneg hxpos h360
    have hdecomp : jsMod (b - a + 540) 360 =
        (b - a + 540) - 360 * ⌊(b - a + 540) / 360⌋ :=
      jsMod_eq_sub_floor hxpos h360
    have he : (a + (jsMod (b - a + 540) 360 - 180) * 1) + 360 =
        b + 360 * (((2 - ⌊(b - a + 540) / 360⌋ : ℤ)) : ℚ) := by
      rw [hdecomp]; push_cast; ring
    exact jsMod_eq_of_add_int_mul h360 (by linarith) h0b hb he

/-- Witness for `slerpHeading_endpoints` at `a = 350`, `b = 10`. -/
theorem slerpHeading_endpoints_witness :
    (0:ℚ) ≤ 350 ∧ (350:ℚ) < 360 ∧ (0:ℚ) ≤ 10 ∧ (10:ℚ) < 360 ∧
    slerpHeading 350 10 0 = 350 ∧ slerpHeading 350 10 1 = 10 := by
  refine ⟨by norm_num, by norm_num, by norm_num, by norm_num, ?_⟩
  exact slerpHeading_endpoints 350 10 (by norm_num) (by norm_num)
    (by norm_num) (by norm_num)

/-- Claim C7: for every `now`, evaluating a buffer with no keyframes yields
`current = none` (total, no failure), and evaluating a buffer with exactly
one keyframe yields `current` equal to that keyframe verbatim. -/
theorem evaluate_empty_and_single (buffer : InterpolationBuffer) (now : ℚ) :
    (buffer.keyframes = [] → (computeInterpolatedState buffer now).current = none) ∧
    (∀ k : Keyframe, buffer.keyframes = [k] →
      (computeInterpolatedState buffer now).current = some k) := by
  constructor
  · intro h
    simp [computeInterpolatedState, h]
  · intro k h
    simp [computeInterpolatedState, h]

/-- Witness for `evaluate_empty_and_single`: a fresh empty buffer, and the
same buffer holding the single keyframe `sampleKf 1000 0`. -/
theorem evaluate_empty_and_single_witness :
    (createBuffer "e" 1000).keyframes = [] ∧
    (computeInterpolatedState (createBuffer "e" 1000) 0).current = none ∧
    ({ createBuffer "e" 1000 with
        keyframes := [sampleKf 1000 0] } : InterpolationBuffer).keyframes =
      [sampleKf 1000 0] ∧
    (computeInterpolatedState
        { createBuffer "e" 1000 with keyframes := [sampleKf 1000 0] } 0).current =
      some (sampleKf 1000 0) :=
  ⟨rfl, (evaluate_empty_and_single _ 0).1 rfl, rfl,
    (evaluate_empty_and_single _ 0).2 (sampleKf 1000 0) rfl⟩

/-- Claim C10: `pushKeyframe` changes only the `keyframes` field (leaving
`entityId`, `current`, `renderDelay` unchanged), and
`computeInterpolatedState` changes only the `current` field (leaving
`entityId`, `keyframes`, `renderDelay` unchanged). -/
theorem push_and_evaluate_frame_conditions (buffer : InterpolationBuffer)
    (keyframe : Keyframe) (maxBufferSize : ℤ) (now : ℚ) :
    (pushKeyframe buffer keyframe maxBufferSize).entityId = buffer.entityId ∧
    (pushKeyframe buffer keyframe maxBufferSize).current = buffer.current ∧
    (pushKeyframe buffer keyframe maxBufferSize).renderDelay = buffer.renderDelay ∧
    (computeInterpolatedState buffer now).entityId = buffer.entityId ∧
    (computeInterpolatedState buffer now).keyframes = buffer.keyframes ∧
    (computeInterpolatedState buffer now).renderDelay = buffer.renderDelay := by
  refine ⟨rfl, rfl, rfl, ?_, ?_, ?_⟩ <;>
  · simp only [computeInterpolatedState]
    split_ifs <;> rfl

/-- Claim C3 (evidence for the code bug): no validation is performed at
construction/entry.  `createBuffer` with the negative render delay `-5`
returns a buffer carrying `renderDelay = -5` with no error, and
`pushKeyframe` with the negative buffer size `-1` silently discards the
pushed keyframe (JS `slice(1)` on a one-element array) instead of rejecting
the input. -/
theorem createBuffer_pushKeyframe_no_validation :
    createBuffer "e" (-5) =
      { entityId := "e", keyframes := [], current := none, renderDelay := -5 } ∧
    (pushKeyframe (createBuffer "e" (-5)) (sampleKf 1000 0) (-1)).keyframes = [] := by
  constructor
  · rfl
  · rfl

/-- Claim C5 (amended: for every `maxBufferSize ≥ 1`): if the buffer's
keyframes are sorted ascending by timestamp, then after `pushKeyframe` the
keyframes are still sorted ascending by timestamp, contain at most
`maxBufferSize` entries, and the result is a suffix of the sorted merged
list whose dropped prefix (the evicted entries) consists only of keyframes
with timestamps ≤ every kept one: the oldest are discarded, the most recent
kept. -/
theorem pushKeyframe_sorted_bounded_recent (buffer : InterpolationBuffer)
    (keyframe : Keyframe) (maxBufferSize : ℤ)
    (_hsorted : buffer.keyframes.Sorted tsLE) (hmax : 1 ≤ maxBufferSize) :
    (pushKeyframe buffer keyframe maxBufferSize).keyframes.Sorted tsLE ∧
    ((pushKeyframe buffer keyframe maxBufferSize).keyframes.length : ℤ) ≤ maxBufferSize ∧
    ∃ dropped : List Keyframe,
      dropped ++ (pushKeyframe buffer keyframe maxBufferSize).keyframes =
        List.insertionSort tsLE (buffer.keyframes ++ [keyframe]) ∧
      ∀ x ∈ dropped, ∀ y ∈ (pushKeyframe buffer keyframe maxBufferSize).keyframes,
        tsLE x y := by
  set l := List.insertionSort tsLE (buffer.keyframes ++ [keyframe]) with hl
  have hneg : -maxBufferSize < 0 := by omega
  have hres : (pushKeyframe buffer keyframe maxBufferSize).keyframes =
      l.drop ((l.length + (-maxBufferSize)).toNat) := by
    simp only [pushKeyframe, jsSlice, hl]
    rw [if_pos hneg]
  have hsort_l : l.Sorted tsLE := List.sorted_insertionSort tsLE _
  refine ⟨?_, ?_, ?_⟩
  · rw [hres]
    exact List.Pairwise.sublist (List.drop_sublist _ _) hsort_l
  · rw [hres, List.length_drop]
    omega
  · refine ⟨l.take ((l.length + (-maxBufferSize)).toNat), ?_, ?_⟩
    · rw [hres]
      exact List.take_append_drop _ _
    · intro x hx y hy
      rw [hres] at hy
      exact hsort_l.rel_of_mem_take_of_mem_drop hx hy

/-- Witness for `pushKeyframe_sorted_bounded_recent`: pushing a third
keyframe into a sorted two-keyframe buffer with `maxBufferSize = 2`. -/
theorem pushKeyframe_sorted_bounded_recent_witness :
    (({ createBuffer "e" 1000 with
        keyframes := [sampleKf 1000 0, sampleKf 2000 0] } :
          InterpolationBuffer).keyframes.Sorted tsLE ∧ (1:ℤ) ≤ 2) ∧
    ((pushKeyframe
        { createBuffer "e" 1000 with keyframes := [sampleKf 1000 0, sampleKf 2000 0] }
        (sampleKf 3000 0) 2).keyframes.Sorted tsLE ∧
      ((pushKeyframe
        { createBuffer "e" 1000 with keyframes := [sampleKf 1000 0, sampleKf 2000 0] }
        (sampleKf 3000 0) 2).keyframes.length : ℤ) ≤ 2 ∧
      ∃ dropped : List Keyframe,
        dropped ++ (pushKeyframe
          { createBuffer "e" 1000 with keyframes := [sampleKf 1000 0, sampleKf 2000 0] }
          (sampleKf 3000 0) 2).keyframes =
          List.insertionSort tsLE
            (({ createBuffer "e" 1000 with
                keyframes := [sampleKf 1000 0, sampleKf 2000 0] } :
                  InterpolationBuffer).keyframes ++ [sampleKf 3000 0]) ∧
        ∀ x ∈ dropped, ∀ y ∈ (pushKeyframe
          { createBuffer "e" 1000 with keyframes := [sampleKf 1000 0, sampleKf 2000 0] }
          (sampleKf 3000 0) 2).keyframes, tsLE x y) :=
  ⟨⟨by decide, by norm_num⟩,
    pushKeyframe_sorted_bounded_recent _ (sampleKf 3000 0) 2 (by decide) (by norm_num)⟩

/-- Claim C5 counterexample: the claim quantifies over *every* `maxBufferSize`,
but at `maxBufferSize = 0` the code's `slice(-maxBufferSize)` is JS
`slice(-0) = slice(0)`, which keeps the whole array: pushing one keyframe
into an empty (trivially sorted) buffer with `maxBufferSize = 0` yields one
entry, not at most 0. -/
theorem pushKeyframe_bound_claim_counterexample :
    (createBuffer "e" 1000).keyframes.Sorted tsLE ∧
    ¬ (((pushKeyframe (createBuffer "e" 1000) (sampleKf 1000 0) 0).keyframes.length : ℤ)
        ≤ 0) := by
  constructor
  · exact List.sorted_nil
  · have h : (pushKeyframe (createBuffer "e" 1000) (sampleKf 1000 0) 0).keyframes =
        [sampleKf 1000 0] := rfl
    rw [h]
    norm_num

/-- Claim C6: for a buffer holding exactly the keyframes at timestamps 1000
(position `A`, heading 0) and 2000 (position `B`, heading 90) with
`renderDelay = 500`, evaluating at `now = 2000` uses
`renderTime = 1500` and sets `current` to the exact midpoint pose: each
position component is the midpoint of `A` and `B`, the heading is 45, and
the synthesized keyframe's timestamp is 1500. -/
theorem midpoint_evaluation (A B : LngLatAlt ℚ) :
    (computeInterpolatedState
      { entityId := "drone-1"
        keyframes :=
          [{ position := A, heading := 0, pitch := 0, roll := 0, timestamp := 1000 },
           { position := B, heading := 90, pitch := 0, roll := 0, timestamp := 2000 }]
        current := none
        renderDelay := 500 } 2000).current =
    some { position := { lng := (A.lng + B.lng) / 2, lat := (A.lat + B.lat) / 2,
                         alt := (A.alt + B.alt) / 2 }
           heading := 45, pitch := 0, roll := 0, timestamp := 1500 } := by
  simp only [computeInterpolatedState, findPrevIdx, findPrevIdxAux,
    interpolateKeyframe, lerpPosition, lerp, slerpHeading, clamp01, jsMod, jsTrunc]
  norm_num
  exact ⟨by ring, by ring, by ring⟩

/-- Claim C8: `remainingFlightTime` is `(batteryCapacity · energyLevel) /
currentPower · 3600` seconds for positive power, and infinite (modelled as
`none`, the JS `Infinity`) when `currentPower ≤ 0`. -/
theorem remainingFlightTime_spec (spec : DroneSpec) (energyLevel currentPower : ℝ) :
    (0 < currentPower →
      remainingFlightTime spec energyLevel currentPower =
        some (spec.batteryCapacity * energyLevel / currentPower * 3600)) ∧
    (currentPower ≤ 0 →
      remainingFlightTime spec energyLevel currentPower = none) := by
  constructor
  · intro h
    rw [remainingFlightTime, if_neg (not_le.mpr h)]
  · intro h
    rw [remainingFlightTime, if_pos h]

/-- Witness for `remainingFlightTime_spec` at `currentPower = 450` (positive)
and `currentPower = 0` (the guarded division by zero). -/
theorem remainingFlightTime_spec_witness :
    (0:ℝ) < 450 ∧ (0:ℝ) ≤ 0 ∧
    remainingFlightTime DEFAULT_DRONE_SPEC 1 450 =
      some (DEFAULT_DRONE_SPEC.batteryCapacity * 1 / 450 * 3600) ∧
    remainingFlightTime DEFAULT_DRONE_SPEC 1 0 = none :=
  ⟨by norm_num, le_refl 0,
    (remainingFlightTime_spec DEFAULT_DRONE_SPEC 1 450).1 (by norm_num),
    (remainingFlightTime_spec DEFAULT_DRONE_SPEC 1 0).2 (le_refl 0)⟩

/-- Claim C1 counterexample: the claim states
`airDensity(h, tempC) = ρ₀ · exp(−g·h / (R·T))`, but at `h = 0`,
`tempC = 20` the code returns `1.225 · (288.15 / 293.15) ≈ 1.204`, not
`1.225 · exp 0 = 1.225`: the code multiplies by the extra temperature
factor `T0 / T` (`Math.pow(T0 / T, 1)`). -/
theorem airDensity_claim_counterexample :
    airDensity 0 20 ≠ 1.225 * Real.exp (-9.80665 * 0 / (287.05 * (20 + 273.15))) := by
  have harg : (-9.80665 * (0:ℝ) / (287.05 * (20 + 273.15))) = 0 := by norm_num
  simp only [airDensity, RHO_SEA_LEVEL, G, Real.rpow_one, harg, Real.exp_zero]
  norm_num

/-- Claim C1 (amended: the code includes an extra `T0 / T` factor with
`T0 = 288.15`): for every altitude `h` and temperature `tempC` (with
`T = tempC + 273.15`), `airDensity h tempC = ρ₀ · (T0 / T) ·
exp(−g·h / (R·T))` with `R = 287.05`, `g = 9.80665`, `ρ₀ = 1.225`. -/
theorem airDensity_formula_amended (altitudeM tempC : ℝ) :
    airDensity altitudeM tempC =
      1.225 * (288.15 / (tempC + 273.15)) *
        Real.exp (-9.80665 * altitudeM / (287.05 * (tempC + 273.15))) := by
  simp only [airDensity, RHO_SEA_LEVEL, G, Real.rpow_one]

/-- **C4**: for every drone spec, entity state and environment,
`assessSafety` returns `safe = true` iff its risk list is empty; under
`typhoon` the non-recommended-flight risk is always in the list (so the
verdict is never safe), and under any condition other than `typhoon` and
`storm` neither weather risk appears. -/
theorem assessSafety_safe_iff_and_weather (spec : DroneSpec) (entity : EntityState)
    (env : SimulationParams) :
    ((assessSafety spec entity env).safe = true ↔
      (assessSafety spec entity env).risks = []) ∧
    (env.weatherCondition = WeatherCondition.typhoon →
      Risk.typhoonNotRecommended ∈ (assessSafety spec entity env).risks ∧
      (assessSafety spec entity env).safe = false) ∧
    (env.weatherCondition ≠ WeatherCondition.typhoon →
      env.weatherCondition ≠ WeatherCondition.storm →
      Risk.typhoonNotRecommended ∉ (assessSafety spec entity env).risks ∧
      Risk.stormElevated ∉ (assessSafety spec entity env).risks) := by
  unfold assessSafety
  dsimp only
  refine ⟨?_, ?_, ?_⟩
  · exact List.isEmpty_iff
  · intro h
    rw [if_pos h]
    constructor
    · simp
    · simp
  · intro h1 h2
    rw [if_neg h1, if_neg h2]
    cases hrem : (remainingFlightTime spec entity.energyLevel
        (powerConsumption spec entity.speed 0 entity.position.alt env.temperature)).map
        (fun s => s / 60) with
    | none => constructor <;> (split_ifs <;> simp)
    | some m => constructor <;> (split_ifs <;> simp) <;> (split_ifs <;> simp)

/-- Witness for `assessSafety_safe_iff_and_weather`: the unit-test drone
under the typhoon environment and under the clear environment. -/
theorem assessSafety_safe_iff_and_weather_witness :
    (typhoonEnv.weatherCondition = WeatherCondition.typhoon ∧
      Risk.typhoonNotRecommended ∈
        (assessSafety DEFAULT_DRONE_SPEC sampleEntity typhoonEnv).risks ∧
      (assessSafety DEFAULT_DRONE_SPEC sampleEntity typhoonEnv).safe = false) ∧
    (clearEnv.weatherCondition ≠ WeatherCondition.typhoon ∧
      clearEnv.weatherCondition ≠ WeatherCondition.storm ∧
      Risk.typhoonNotRecommended ∉
        (assessSafety DEFAULT_DRONE_SPEC sampleEntity clearEnv).risks ∧
      Risk.stormElevated ∉
        (assessSafety DEFAULT_DRONE_SPEC sampleEntity clearEnv).risks) :=
  ⟨⟨rfl, (assessSafety_safe_iff_and_weather DEFAULT_DRONE_SPEC sampleEntity
      typhoonEnv).2.1 rfl⟩,
    ⟨by decide, by decide,
      (assessSafety_safe_iff_and_weather DEFAULT_DRONE_SPEC sampleEntity
        clearEnv).2.2 (by decide) (by decide)⟩⟩

end PublicOS
